import Mathlib

/-!
Shallow embedding of the css-scroll-snap-polyfill sources: the geometry
accessors, the snap-target resolver `getNextElementSnapPoint` with its
module-level scan state `currentIteration`, the scroll animator helpers
(`getDuration`, `easeInCubic`, `position`), the settle handler
`handlerDelayed`, and the length parser `parseLengthPercentage` together
with the persistent state of its shared global-flag regex.  JavaScript
numbers are modelled as exact rationals; the special values NaN and the
infinities are modelled explicitly where the code can produce them.
-/

namespace ScrollSnap

/-- Source constant: alignment keyword `none`. -/
def NONE : String := "none"

/-- Source constant: alignment keyword `start`. -/
def START : String := "start"

/-- Source constant: alignment keyword `end`. -/
def END : String := "end"

/-- Source constant: alignment keyword `center`. -/
def CENTER : String := "center"

/-- Source constant: the 18 percent snap-retention constraint. -/
def CONSTRAINT : ℚ := 0.18

/-- Source constant: base time for smooth scrolling, in milliseconds. -/
def SCROLL_TIME : ℚ := 350

/-- Geometry of a DOM element, as read by the accessor functions
`getLeft`, `getTop`, `getWidth`, `getHeight`. -/
structure Elem where
  offsetLeft : ℚ
  clientLeft : ℚ
  offsetTop : ℚ
  clientTop : ℚ
  offsetWidth : ℚ
  offsetHeight : ℚ
deriving DecidableEq, Inhabited

/-- The parsed `scroll-snap-align` declaration of a snap element
(`parseScrollSnapAlignment` produces per-axis keyword strings). -/
structure Alignment where
  x : String
  y : String
deriving DecidableEq, Inhabited

/-- A snap candidate: a child element with its `scrollSnapAlignment`. -/
structure SnapElement extends Elem where
  scrollSnapAlignment : Alignment
deriving DecidableEq, Inhabited

/-- A parsed length token, as produced by `parseLengthPercentage`. -/
structure LengthPercentage where
  value : ℚ
  unit : String
deriving DecidableEq, Inhabited

/-- The four scroll-padding insets stored by `parseScrollPadding`. -/
structure ScrollPadding where
  top : LengthPercentage
  right : LengthPercentage
  bottom : LengthPercentage
  left : LengthPercentage
deriving DecidableEq, Inhabited

/-- A scroll container: element geometry plus scroll offsets, scrollable
extents and the parsed scroll padding. -/
structure ScrollObj extends Elem where
  scrollTop : ℚ
  scrollLeft : ℚ
  scrollWidth : ℚ
  scrollHeight : ℚ
  scrollPadding : ScrollPadding
deriving DecidableEq, Inhabited

/-- A scroll container carrying its list of snap candidates
(the `snapElements` array installed by `setUpElement`). -/
structure SnapContainer extends ScrollObj where
  snapElements : List SnapElement
deriving DecidableEq, Inhabited

/-- A pair of scroll coordinates, `{y, x}` in the source. -/
structure Coords where
  y : ℚ
  x : ℚ
deriving DecidableEq, Inhabited

/-- The per-axis scroll direction object built by `handlerDelayed`:
each component is `-1` or `1`. -/
structure Dir where
  y : Int
  x : Int
deriving DecidableEq, Inhabited

/-- js `obj.scrollHeight`. -/
def getScrollHeight (obj : ScrollObj) : ℚ := obj.scrollHeight

/-- js `obj.scrollWidth`. -/
def getScrollWidth (obj : ScrollObj) : ℚ := obj.scrollWidth

/-- js `obj.offsetHeight`. -/
def getHeight (obj : Elem) : ℚ := obj.offsetHeight

/-- js `obj.offsetWidth`. -/
def getWidth (obj : Elem) : ℚ := obj.offsetWidth

/-- js `obj.offsetLeft + obj.clientLeft`. -/
def getLeft (obj : Elem) : ℚ := obj.offsetLeft + obj.clientLeft

/-- js `obj.offsetTop + obj.clientTop`. -/
def getTop (obj : Elem) : ℚ := obj.offsetTop + obj.clientTop

/-- Resolve a length value to pixels; `docEl` is
`document.documentElement`, consulted for viewport units. -/
def toPx (docEl : Elem) (value : ℚ) (unit : String) (containerEl : Elem) : ℚ :=
  if unit.toLower = "vw" then getWidth docEl * (value / 100)
  else if unit.toLower = "vh" then getHeight docEl * (value / 100)
  else if unit = "%" then getWidth containerEl * (value / 100)
  else value

/-- The argument actually given to `roundByDirection` by the source: the
documented contract is a number, but every call site inside
`getNextElementSnapPoint`, `getXSnapLength` and `getYSnapLength` passes
the whole direction object instead. -/
inductive RoundArg
  | num : ℚ → RoundArg
  | dir : Dir → RoundArg
deriving DecidableEq

/-- js `roundByDirection`: floor when the argument is strictly equal
(`===`) to the number `-1`, otherwise ceil.  A direction object is never
strictly equal to `-1`, so object arguments always take the ceil branch. -/
def roundByDirection (direction : RoundArg) (currentPoint : ℚ) : ℚ :=
  if direction = RoundArg.num (-1) then (⌊currentPoint⌋ : ℚ)
  else (⌈currentPoint⌉ : ℚ)

/-- js `getYSnapLength`: the axis contribution of an alignment keyword.
Note the call passes the direction object through to `roundByDirection`. -/
def getYSnapLength (obj : Elem) (alignment : String) (direction : Dir) : ℚ :=
  if alignment = START then 0
  else if alignment = END then getHeight obj
  else if alignment = CENTER then roundByDirection (RoundArg.dir direction) (getHeight obj / 2)
  else 0

/-- js `getXSnapLength`: horizontal analogue of `getYSnapLength`. -/
def getXSnapLength (obj : Elem) (alignment : String) (direction : Dir) : ℚ :=
  if alignment = START then 0
  else if alignment = END then getWidth obj
  else if alignment = CENTER then roundByDirection (RoundArg.dir direction) (getWidth obj / 2)
  else 0

/-- js `stayInBounds(min, max, destined) = Math.max(Math.min(destined, max), min)`. -/
def stayInBounds (mn mx destined : ℚ) : ℚ :=
  max (min destined mx) mn

/-- The snap coordinate of candidate `e` at scan position `i`, as
computed at the two places of `getNextElementSnapPoint` that use the
`i === 0 ? 0 : ...` formula (for the current element and inside the
scan loop). -/
def candidateSnapCoords (scrollObj : ScrollObj) (e : SnapElement) (direction : Dir) (i : Int) : Coords :=
  { y := if i = 0 then 0 else
      (getTop e.toElem - getTop scrollObj.toElem)
        + getYSnapLength e.toElem e.scrollSnapAlignment.y direction
        - getYSnapLength scrollObj.toElem e.scrollSnapAlignment.y direction
  , x := if i = 0 then 0 else
      (getLeft e.toElem - getLeft scrollObj.toElem)
        + getXSnapLength e.toElem e.scrollSnapAlignment.x direction
        - getXSnapLength scrollObj.toElem e.scrollSnapAlignment.x direction }

/-- The coordinates assigned to the last candidate in the end-of-scroll
special case of `getNextElementSnapPoint` (no container contribution is
subtracted there, unlike `candidateSnapCoords`). -/
def lastSnapCoords (scrollObj : ScrollObj) (lastSnapElement : SnapElement) (direction : Dir) : Coords :=
  { y := (getTop lastSnapElement.toElem - getTop scrollObj.toElem)
        + getYSnapLength lastSnapElement.toElem lastSnapElement.scrollSnapAlignment.y direction
  , x := (getLeft lastSnapElement.toElem - getLeft scrollObj.toElem)
        + getXSnapLength lastSnapElement.toElem lastSnapElement.scrollSnapAlignment.x direction }

/-- js local `adjustForPadding`: the padding adjustment is skipped for
the first and the last candidate.  `currentIteration` is read at call
time, after the accept path has already updated it. -/
def adjustForPadding (currentIteration : Int) (l : Nat) (value adjustment : ℚ) : ℚ :=
  if currentIteration = 0 ∨ currentIteration = (l : Int) - 1 then value
  else value - adjustment

/-- Outcome of the scan loop of `getNextElementSnapPoint`: a `return`
from inside the loop (`accepted`), or loop exit by `break` or by the
loop condition failing (`stopped`, carrying the final value of `i` and
of the loop variable `snapCoords`).  `outOfFuel` marks exhaustion of the
step budget, which cannot happen for the unit step sizes the program
uses. -/
inductive ScanResult
  | accepted : Int → Coords → ScanResult
  | stopped : Int → Coords → ScanResult
  | outOfFuel : ScanResult
deriving DecidableEq

/-- The `for` loop of `getNextElementSnapPoint` (iteration variable `i`
starts at `currentIteration + primaryDirection` and steps by
`primaryDirection` while `i < l && i >= 0`). -/
def scanLoop (scrollObj obj : SnapContainer) (direction : Dir)
    (xThreshold yThreshold : ℚ) (primaryDirection : Int) :
    Nat → Int → Coords → ScanResult
  | 0, _, _ => .outOfFuel
  | fuel + 1, i, snapCoords =>
    if i < (obj.snapElements.length : Int) ∧ 0 ≤ i then
      let currentIteratedObj := obj.snapElements.getD i.toNat default
      let sc := candidateSnapCoords scrollObj.toScrollObj currentIteratedObj direction i
      if (if direction.x = 1 then scrollObj.scrollLeft < xThreshold
            else scrollObj.scrollLeft > xThreshold) ∧
         (if direction.y = 1 then scrollObj.scrollTop < yThreshold
            else scrollObj.scrollTop > yThreshold) then
        .stopped i sc
      else
        let elementXThreshold := sc.x + (direction.x : ℚ) * getWidth currentIteratedObj.toElem * CONSTRAINT
        let elementYThreshold := sc.y + (direction.y : ℚ) * getHeight currentIteratedObj.toElem * CONSTRAINT
        if (if direction.x = 1 then scrollObj.scrollLeft > elementXThreshold
              else scrollObj.scrollLeft < elementXThreshold) ∨
           (if direction.y = 1 then scrollObj.scrollTop > elementYThreshold
              else scrollObj.scrollTop < elementYThreshold) then
          scanLoop scrollObj obj direction xThreshold yThreshold primaryDirection
            fuel (i + primaryDirection) sc
        else
          .accepted i sc
    else .stopped i snapCoords

/-- js `getNextElementSnapPoint(scrollObj, obj, direction)`.  The module
global `currentIteration` is passed in explicitly and the updated value
is returned next to the snap point.  `none` models a thrown TypeError
(an out-of-range candidate access yields `undefined`, whose property
reads throw).  `docEl` stands for `document.documentElement`. -/
def getNextElementSnapPoint (docEl : Elem) (scrollObj obj : SnapContainer)
    (direction : Dir) (currentIteration : Int) : Option (Coords × Int) :=
  let l := obj.snapElements.length
  let top := scrollObj.scrollTop
  let left := scrollObj.scrollLeft
  let primaryDirection := min direction.y direction.x
  let snapCoords : Coords := ⟨0, 0⟩
  let paddingTop := scrollObj.scrollPadding.top
  let paddingLeft := scrollObj.scrollPadding.left
  let pTop := roundByDirection (RoundArg.dir direction)
    (toPx docEl paddingTop.value paddingTop.unit scrollObj.toElem)
  let pLeft := roundByDirection (RoundArg.dir direction)
    (toPx docEl paddingLeft.value paddingLeft.unit scrollObj.toElem)
  if (left > 0 ∧ left + getWidth scrollObj.toElem = getScrollWidth scrollObj.toScrollObj) ∨
     (top > 0 ∧ top + getHeight scrollObj.toElem = getScrollHeight scrollObj.toScrollObj) then
    if l = 0 then none
    else
      let lastSnapElement := obj.snapElements.getD (l - 1) default
      let lsc := lastSnapCoords scrollObj.toScrollObj lastSnapElement direction
      some (⟨stayInBounds 0 (getScrollHeight scrollObj.toScrollObj) lsc.y,
             stayInBounds 0 (getScrollWidth scrollObj.toScrollObj) lsc.x⟩, (l : Int) - 1)
  else
    if 0 ≤ currentIteration ∧ currentIteration < (l : Int) then
      let currentSnapElement := obj.snapElements.getD currentIteration.toNat default
      let currentSnapCoords :=
        candidateSnapCoords scrollObj.toScrollObj currentSnapElement direction currentIteration
      let xThreshold := currentSnapCoords.x
        + (direction.x : ℚ) * getWidth currentSnapElement.toElem * CONSTRAINT
      let yThreshold := currentSnapCoords.y
        + (direction.y : ℚ) * getHeight currentSnapElement.toElem * CONSTRAINT
      match scanLoop scrollObj obj direction xThreshold yThreshold primaryDirection
          (l + 1) (currentIteration + primaryDirection) snapCoords with
      | .accepted i sc =>
          some (⟨stayInBounds 0 (getScrollHeight scrollObj.toScrollObj) (adjustForPadding i l sc.y pTop),
                 stayInBounds 0 (getScrollWidth scrollObj.toScrollObj) (adjustForPadding i l sc.x pLeft)⟩, i)
      | .stopped i sc =>
          if primaryDirection = 1 ∧ i = (l : Int) - 1 then
            some (⟨stayInBounds 0 (getScrollHeight scrollObj.toScrollObj) sc.y,
                   stayInBounds 0 (getScrollWidth scrollObj.toScrollObj) sc.x⟩, (l : Int) - 1)
          else if primaryDirection = -1 ∧ i = 0 then
            some (⟨stayInBounds 0 (getScrollHeight scrollObj.toScrollObj) sc.y,
                   stayInBounds 0 (getScrollWidth scrollObj.toScrollObj) sc.x⟩, 0)
          else
            some (⟨stayInBounds 0 (getScrollHeight scrollObj.toScrollObj)
                     (adjustForPadding currentIteration l currentSnapCoords.y pTop),
                   stayInBounds 0 (getScrollWidth scrollObj.toScrollObj)
                     (adjustForPadding currentIteration l currentSnapCoords.x pLeft)⟩, currentIteration)
      | .outOfFuel => none
    else none

/-- A JavaScript double restricted to the values the animator code can
produce: an exact rational, one of the two infinities, or NaN. -/
inductive JSNum
  | num : ℚ → JSNum
  | posInf : JSNum
  | negInf : JSNum
  | nan : JSNum
deriving DecidableEq, Inhabited

/-- js subtraction on `JSNum`. -/
def jsSub : JSNum → JSNum → JSNum
  | .nan, _ => .nan
  | _, .nan => .nan
  | .num a, .num b => .num (a - b)
  | .num _, .posInf => .negInf
  | .num _, .negInf => .posInf
  | .posInf, .posInf => .nan
  | .posInf, _ => .posInf
  | .negInf, .negInf => .nan
  | .negInf, _ => .negInf

/-- js `Math.abs` on `JSNum`. -/
def jsAbs : JSNum → JSNum
  | .num a => .num |a|
  | .nan => .nan
  | _ => .posInf

/-- js multiplication of a finite number `c` with a `JSNum`
(`0 * Infinity` is NaN). -/
def jsMulQ (c : ℚ) : JSNum → JSNum
  | .nan => .nan
  | .num q => .num (c * q)
  | .posInf => if c = 0 then .nan else if 0 < c then .posInf else .negInf
  | .negInf => if c = 0 then .nan else if 0 < c then .negInf else .posInf

/-- js addition of a finite number with a `JSNum`. -/
def jsAddQ (c : ℚ) : JSNum → JSNum
  | .nan => .nan
  | .num q => .num (c + q)
  | .posInf => .posInf
  | .negInf => .negInf

/-- js division of two finite numbers (`0 / 0` is NaN, `x / 0` is a
signed infinity). -/
def jsDiv (a b : ℚ) : JSNum :=
  if b = 0 then
    if a = 0 then .nan else if 0 < a then .posInf else .negInf
  else .num (a / b)

/-- js `Math.min` on `JSNum` (NaN propagates). -/
def jsMin : JSNum → JSNum → JSNum
  | .nan, _ => .nan
  | _, .nan => .nan
  | .num a, .num b => .num (min a b)
  | .negInf, _ => .negInf
  | _, .negInf => .negInf
  | .posInf, b => b
  | a, .posInf => a

/-- js `Math.max` on `JSNum` (NaN propagates). -/
def jsMax : JSNum → JSNum → JSNum
  | .nan, _ => .nan
  | _, .nan => .nan
  | .num a, .num b => .num (max a b)
  | .posInf, _ => .posInf
  | _, .posInf => .posInf
  | .negInf, b => b
  | a, .negInf => a

/-- js `easeInCubic(t) = t * t * t` on a possibly non-finite timing
ratio. -/
def easeInCubic : JSNum → JSNum
  | .num t => .num (t * t * t)
  | .posInf => .posInf
  | .negInf => .negInf
  | .nan => .nan

/-- js `position(start, end, elapsed, duration)`: the animator sample.
The parameters are finite (they come from scroll offsets and clock
differences), but the result can be NaN when `duration = 0`. -/
def position (start end' elapsed duration : ℚ) : JSNum :=
  if elapsed > duration then .num end'
  else jsAddQ start (jsMulQ (end' - start) (easeInCubic (jsDiv elapsed duration)))

/-- The duration computation of js `getDuration` before the `isNaN`
check: `100 / SCROLL_TIME * (100 / Math.max(clientHeight, innerHeight || 1) * distance)`.
`clientHeight` is `document.documentElement.clientHeight` and
`innerHeight` is `window.innerHeight` (`|| 1` replaces a falsy value). -/
def rawDuration (clientHeight innerHeight : ℚ) (start end' : JSNum) : JSNum :=
  let distance := jsAbs (jsSub start end')
  let procDist := jsMulQ (100 / max clientHeight (if innerHeight = 0 then 1 else innerHeight)) distance
  jsMulQ (100 / SCROLL_TIME) procDist

/-- js `getDuration(start, end)`: 0 when the computation is NaN,
otherwise `Math.max(SCROLL_TIME / 1.5, Math.min(duration, SCROLL_TIME))`. -/
def getDuration (clientHeight innerHeight : ℚ) (start end' : JSNum) : JSNum :=
  if rawDuration clientHeight innerHeight start end' = .nan then .num 0
  else jsMax (.num (SCROLL_TIME / 1.5))
    (jsMin (rawDuration clientHeight innerHeight start end') (.num SCROLL_TIME))

/-- A thrown JavaScript error. -/
inductive JsError
  | typeError : JsError
deriving DecidableEq

/-- Net effect of js `smoothScroll(obj, end, callback)`: reading
`end.y` inside `getDuration(start.y, end.y)` throws a TypeError when
`end` is `undefined`; otherwise the animation eventually writes the
target offsets.  The time-stepped interpolation itself is the
`position` function above. -/
def smoothScroll (obj : SnapContainer) (end' : Option Coords) : Except JsError Coords :=
  match end' with
  | none => .error .typeError
  | some e => .ok e

/-- js `handlerDelayed`: the settle processing after the quiet period.
It receives the recorded `scrollStart`, the last scroll object and the
module global `currentIteration`, and returns the final scroll offsets
together with the updated global.  The resolver is invoked only when
`snapElements` is non-empty; otherwise `snapPoint` stays `undefined`
and is passed to `smoothScroll` nonetheless. -/
def handlerDelayed (docEl : Elem) (scrollStart : Coords) (lastScrollObj : SnapContainer)
    (currentIteration : Int) : Except JsError (Coords × Int) :=
  if scrollStart.y = lastScrollObj.scrollTop ∧ scrollStart.x = lastScrollObj.scrollLeft then
    .ok (⟨lastScrollObj.scrollTop, lastScrollObj.scrollLeft⟩, currentIteration)
  else
    let direction : Dir :=
      ⟨if scrollStart.y - lastScrollObj.scrollTop > 0 then -1 else 1,
       if scrollStart.x - lastScrollObj.scrollLeft > 0 then -1 else 1⟩
    if 0 < lastScrollObj.snapElements.length then
      match getNextElementSnapPoint docEl lastScrollObj lastScrollObj direction currentIteration with
      | none => .error .typeError
      | some (p, ci) => (smoothScroll lastScrollObj (some p)).map (fun c => (c, ci))
    else
      (smoothScroll lastScrollObj none).map (fun c => (c, currentIteration))

/-- Maximal run of decimal digits at the head of the character list,
with the remainder (the greedy `(\d+)` group). -/
def takeDigits : List Char → List Char × List Char
  | [] => ([], [])
  | c :: cs =>
    if c.isDigit then
      let p := takeDigits cs
      (c :: p.1, p.2)
    else ([], c :: cs)

/-- The `(px|vh|vw|%)` alternation of `LENGTH_PERCENTAGE_REGEX`, tried
in source order against the head of the remainder. -/
def matchUnit : List Char → Option (String × List Char)
  | 'p' :: 'x' :: rest => some ("px", rest)
  | 'v' :: 'h' :: rest => some ("vh", rest)
  | 'v' :: 'w' :: rest => some ("vw", rest)
  | '%' :: rest => some ("%", rest)
  | _ => none

/-- Match `(\d+)(px|vh|vw|%)` anchored at the head of the list.  Greedy
digit matching needs no backtracking here because no unit alternative
begins with a digit. -/
def matchLPAt (cs : List Char) : Option (String × String) :=
  let p := takeDigits cs
  if p.1 = [] then none
  else
    match matchUnit p.2 with
    | some (u, _) => some (String.mk p.1, u)
    | none => none

/-- Scan for the first match position, as `RegExp.exec` does; `pos` is
the absolute index of the head of `cs` in the subject string.  Returns
the two captured groups and the index one past the match (the new
`lastIndex` of a global regex). -/
def lpExecAux : List Char → Nat → Option (String × String × Nat)
  | [], _ => none
  | c :: cs, pos =>
    match matchLPAt (c :: cs) with
    | some (d, u) => some (d, u, pos + d.length + u.length)
    | none => lpExecAux cs (pos + 1)

/-- js `LENGTH_PERCENTAGE_REGEX.exec(s)`: the regex carries the `g`
flag, so matching starts at the persisted `lastIndex`; a successful
match advances `lastIndex` past the match, a failure resets it to 0. -/
def lpExec (lastIndex : Nat) (s : String) : Option (String × String) × Nat :=
  match lpExecAux (s.toList.drop lastIndex) lastIndex with
  | some (d, u, newIdx) => (some (d, u), newIdx)
  | none => (none, 0)

/-- js `parseInt(value, 10)` on a digit-only capture. -/
def parseIntDigits (s : String) : Nat :=
  s.toList.foldl (fun acc c => 10 * acc + (c.toNat - '0'.toNat)) 0

/-- js `parseLengthPercentage(strValue)`, with the persistent
`lastIndex` state of the module-level global-flag regex made explicit:
the function returns the parsed result together with the regex state
left behind for the next call. -/
def parseLengthPercentage (lastIndex : Nat) (strValue : String) : LengthPercentage × Nat :=
  match lpExec lastIndex strValue with
  | (none, li) => (⟨0, "px"⟩, li)
  | (some (d, u), li) => (⟨(parseIntDigits d : ℚ), u⟩, li)

/-- The module-level mutable scan state of the resolver: the single
`currentIteration` variable shared by every container. -/
structure ModuleState where
  currentIteration : Int
deriving DecidableEq

/-- One resolver invocation as `handlerDelayed` performs it, threading
the shared module state. -/
def resolveCall (docEl : Elem) (s : ModuleState) (c : SnapContainer) (direction : Dir) :
    Option (Coords × ModuleState) :=
  (getNextElementSnapPoint docEl c c direction s.currentIteration).map
    (fun r => (r.1, ⟨r.2⟩))

/-- A container with fresh scroll offsets, as successive settle events
observe it (geometry and candidates unchanged). -/
def setOffsets (c : SnapContainer) (off : Coords) : SnapContainer :=
  { c with scrollTop := off.y, scrollLeft := off.x }

/-- The index produced by one forward-settle resolver call; a failed
call leaves the index unchanged. -/
def resolveIndexStep (docEl : Elem) (c : SnapContainer) (cur : Int) (off : Coords) : Int :=
  match getNextElementSnapPoint docEl (setOffsets c off) (setOffsets c off) ⟨1, 1⟩ cur with
  | some r => r.2
  | none => cur

/-- A document root element for the concrete scenarios (viewport units
are not exercised by them). -/
def docElD : Elem := ⟨0, 0, 0, 0, 1000, 800⟩

/-- Zero scroll padding, the default produced by `parseScrollPadding`. -/
def zeroPad : ScrollPadding := ⟨⟨0, "px"⟩, ⟨0, "px"⟩, ⟨0, "px"⟩, ⟨0, "px"⟩⟩

/-- A 300 by 300 start-aligned snap candidate at horizontal offset `x`. -/
def mkCand (x : ℚ) : SnapElement := ⟨⟨x, 0, 0, 0, 300, 300⟩, ⟨START, START⟩⟩

/-- The container of the C1 scenario: scrollable width 1000, viewport
400 wide and 500 tall, scrolled to x = 250, three start-aligned
same-size candidates at x = 0, 300, 600, zero padding. -/
def exC1 : SnapContainer :=
  ⟨⟨⟨0, 0, 0, 0, 400, 500⟩, 0, 250, 1000, 500, zeroPad⟩, [mkCand 0, mkCand 300, mkCand 600]⟩

/-- The C2 witness container: same scenario geometry as `exC1`. -/
def exC2 : SnapContainer :=
  ⟨⟨⟨0, 0, 0, 0, 400, 500⟩, 0, 250, 1000, 500, zeroPad⟩, [mkCand 0, mkCand 300, mkCand 600]⟩

/-- The C3 counterexample container: offset 0 with viewport equal to the
scrollable extent on the x axis (0 + 1000 = 1000), not at the end on y. -/
def exC3 : SnapContainer :=
  ⟨⟨⟨0, 0, 0, 0, 1000, 500⟩, 0, 0, 1000, 800, zeroPad⟩, [mkCand 0, mkCand 300, mkCand 600]⟩

/-- The C3 witness container: scrolled to the end of the x axis with a
strictly positive offset (100 + 900 = 1000). -/
def exC3w : SnapContainer :=
  ⟨⟨⟨0, 0, 0, 0, 900, 500⟩, 0, 100, 1000, 800, zeroPad⟩, [mkCand 0, mkCand 300, mkCand 600]⟩

/-- An element with an odd size, so that the half-size contribution of
center alignment is fractional. -/
def elemOdd : Elem := ⟨0, 0, 0, 0, 5, 5⟩

/-- First container of the C5 scenario. -/
def exC5A : SnapContainer :=
  ⟨⟨⟨0, 0, 0, 0, 400, 500⟩, 0, 250, 1000, 500, zeroPad⟩, [mkCand 0, mkCand 300, mkCand 600]⟩

/-- Second container of the C5 scenario, distinct from `exC5A` (taller
scrollable extent), also settled at x = 250. -/
def exC5B : SnapContainer :=
  ⟨⟨⟨0, 0, 0, 0, 400, 500⟩, 0, 250, 1000, 600, zeroPad⟩, [mkCand 0, mkCand 300, mkCand 600]⟩

/-- The C6 container: no snap candidates, scrolled from y = 0 to y = 10. -/
def exC6 : SnapContainer :=
  ⟨⟨⟨0, 0, 0, 0, 400, 500⟩, 10, 0, 1000, 800, zeroPad⟩, []⟩

/-- The C9 witness container. -/
def exC9 : SnapContainer :=
  ⟨⟨⟨0, 0, 0, 0, 400, 500⟩, 0, 0, 1000, 500, zeroPad⟩, [mkCand 0, mkCand 300, mkCand 600]⟩

lemma exC1_eval :
    getNextElementSnapPoint docElD exC1 exC1 ⟨1, 1⟩ 0 = some (⟨0, 300⟩, 1) := by
  norm_num [getNextElementSnapPoint, scanLoop, candidateSnapCoords, adjustForPadding,
    stayInBounds, toPx, roundByDirection, getXSnapLength, getYSnapLength, getWidth,
    getHeight, getLeft, getTop, getScrollWidth, getScrollHeight, lastSnapCoords,
    CONSTRAINT, START, END, CENTER, NONE, exC1, docElD, zeroPad, mkCand,
    List.getD, List.get?, Int.toNat, List.length]

/-- C1: the claim says a forward settle at offset x = 250 leaves the
resolver at index 0 returning coordinate x = 0.  The code instead
accepts candidate 1: having passed candidate 0's stay threshold 54 but
not candidate 1's threshold 354, the scanned candidate is taken as the
snap point, so the resolver returns x = 300 with index 1. -/
theorem c1_counterexample :
    getNextElementSnapPoint docElD exC1 exC1 ⟨1, 1⟩ 0 = some (⟨0, 300⟩, 1) ∧
    some ((⟨0, 300⟩ : Coords), (1 : Int)) ≠ some ((⟨0, 0⟩ : Coords), (0 : Int)) := by
  refine ⟨exC1_eval, ?_⟩
  simp only [ne_eq, Option.some.injEq, Prod.mk.injEq, Coords.mk.injEq, not_and]
  intro h
  exact absurd h.2 (by norm_num)

/-- C1 amended: in the C1 scenario (scrollable width 1000, three
same-size start-aligned candidates at x = 0, 300, 600, zero padding,
persisted index 0, forward settle at x = 250) the resolver accepts
candidate 1 — 250 exceeds candidate 0's stay threshold 54 and is below
candidate 1's threshold 354, which means candidate 1 has not been
scrolled past — and returns coordinate x = 300 with new index 1. -/
theorem c1_theorem :
    getNextElementSnapPoint docElD exC1 exC1 ⟨1, 1⟩ 0 = some (⟨0, 300⟩, 1) :=
  exC1_eval

/-- C3 counterexample: a container whose x axis satisfies
offset + viewport = scrollable extent with offset 0 does not trigger the
end-of-scroll special case (the code also requires offset > 0): the
resolver stays at index 0 with coordinate 0 instead of jumping to the
last candidate (index 2, coordinate 600). -/
theorem c3_counterexample :
    exC3.scrollLeft = 0 ∧
    exC3.scrollLeft + getWidth exC3.toElem = getScrollWidth exC3.toScrollObj ∧
    getNextElementSnapPoint docElD exC3 exC3 ⟨1, 1⟩ 0 = some (⟨0, 0⟩, 0) ∧
    (0 : Int) ≠ (exC3.snapElements.length : Int) - 1 := by
  refine ⟨rfl, by norm_num [exC3, getWidth, getScrollWidth], ?_, by norm_num [exC3]⟩
  norm_num [getNextElementSnapPoint, scanLoop, candidateSnapCoords, adjustForPadding,
    stayInBounds, toPx, roundByDirection, getXSnapLength, getYSnapLength, getWidth,
    getHeight, getLeft, getTop, getScrollWidth, getScrollHeight, lastSnapCoords,
    CONSTRAINT, START, END, CENTER, NONE, exC3, docElD, zeroPad, mkCand,
    List.getD, List.get?, Int.toNat, List.length]

/-- C3 amended: the end-of-scroll special case fires only when the
container is at its maximum extent on an axis with a strictly positive
offset there (offset > 0 and offset + viewport size = scrollable
extent); then, for every direction sign and persisted index, the
resolver jumps to the last candidate's coordinate (no padding
adjustment), clamps it, and sets the index to the last candidate. -/
theorem c3_theorem (docEl : Elem) (scrollObj obj : SnapContainer) (direction : Dir)
    (currentIteration : Int)
    (hne : obj.snapElements.length ≠ 0)
    (hend : (scrollObj.scrollLeft > 0 ∧
        scrollObj.scrollLeft + getWidth scrollObj.toElem = getScrollWidth scrollObj.toScrollObj) ∨
      (scrollObj.scrollTop > 0 ∧
        scrollObj.scrollTop + getHeight scrollObj.toElem = getScrollHeight scrollObj.toScrollObj)) :
    getNextElementSnapPoint docEl scrollObj obj direction currentIteration =
      some (⟨stayInBounds 0 (getScrollHeight scrollObj.toScrollObj)
               (lastSnapCoords scrollObj.toScrollObj
                 (obj.snapElements.getD (obj.snapElements.length - 1) default) direction).y,
             stayInBounds 0 (getScrollWidth scrollObj.toScrollObj)
               (lastSnapCoords scrollObj.toScrollObj
                 (obj.snapElements.getD (obj.snapElements.length - 1) default) direction).x⟩,
            (obj.snapElements.length : Int) - 1) := by
  simp only [getNextElementSnapPoint]
  rw [if_pos hend, if_neg hne]

/-- C3 witness: the amended end-of-scroll rule at a concrete container
scrolled to its x-axis end with positive offset. -/
theorem c3_witness :
    getNextElementSnapPoint docElD exC3w exC3w ⟨1, 1⟩ 0 =
      some (⟨stayInBounds 0 (getScrollHeight exC3w.toScrollObj)
               (lastSnapCoords exC3w.toScrollObj
                 (exC3w.snapElements.getD (exC3w.snapElements.length - 1) default) ⟨1, 1⟩).y,
             stayInBounds 0 (getScrollWidth exC3w.toScrollObj)
               (lastSnapCoords exC3w.toScrollObj
                 (exC3w.snapElements.getD (exC3w.snapElements.length - 1) default) ⟨1, 1⟩).x⟩,
            (exC3w.snapElements.length : Int) - 1) :=
  c3_theorem docElD exC3w exC3w ⟨1, 1⟩ 0 (by norm_num [exC3w])
    (Or.inl (by norm_num [exC3w, getWidth, getScrollWidth]))

/-- C4: the snap-length helpers pass the whole direction object to
`roundByDirection`, which floors only when its argument is strictly
equal to the number `-1`; an object never is, so center alignment is
always rounded up, even for direction -1 — here ceil(5 / 2) = 3 on both
axes — while `roundByDirection` applied to the number `-1`, as its own
documentation intends, floors the same half-size to 2. -/
theorem c4_theorem :
    getYSnapLength elemOdd CENTER ⟨-1, -1⟩ = 3 ∧
    getXSnapLength elemOdd CENTER ⟨-1, -1⟩ = 3 ∧
    roundByDirection (RoundArg.num (-1)) (5 / 2) = 2 ∧
    (3 : ℚ) ≠ 2 := by
  have h1 : roundByDirection (RoundArg.dir ⟨-1, -1⟩) ((5 : ℚ) / 2) = 3 := by
    rw [roundByDirection, if_neg (by decide)]
    have h : ⌈(5 : ℚ) / 2⌉ = 3 := by
      rw [Int.ceil_eq_iff] <;> norm_num
    rw [h]; norm_num
  have h2 : roundByDirection (RoundArg.num (-1)) ((5 : ℚ) / 2) = 2 := by
    rw [roundByDirection, if_pos rfl]
    have h : ⌊(5 : ℚ) / 2⌋ = 2 := by
      rw [Int.floor_eq_iff] <;> norm_num
    rw [h]; norm_num
  refine ⟨?_, ?_, h2, by norm_num⟩
  · rw [getYSnapLength, if_neg (by decide), if_neg (by decide), if_pos rfl]
    simpa [getHeight, elemOdd] using h1
  · rw [getXSnapLength, if_neg (by decide), if_neg (by decide), if_pos rfl]
    simpa [getWidth, elemOdd] using h1

lemma exC5A_eval :
    resolveCall docElD ⟨0⟩ exC5A ⟨1, 1⟩ = some (⟨0, 300⟩, ⟨1⟩) := by
  norm_num [resolveCall, getNextElementSnapPoint, scanLoop, candidateSnapCoords,
    adjustForPadding, stayInBounds, toPx, roundByDirection, getXSnapLength,
    getYSnapLength, getWidth, getHeight, getLeft, getTop, getScrollWidth,
    getScrollHeight, lastSnapCoords, CONSTRAINT, START, END, CENTER, NONE,
    exC5A, docElD, zeroPad, mkCand, List.getD, List.get?, Int.toNat, List.length]

lemma exC5B_eval_one :
    resolveCall docElD ⟨1⟩ exC5B ⟨1, 1⟩ = some (⟨0, 600⟩, ⟨2⟩) := by
  norm_num [resolveCall, getNextElementSnapPoint, scanLoop, candidateSnapCoords,
    adjustForPadding, stayInBounds, toPx, roundByDirection, getXSnapLength,
    getYSnapLength, getWidth, getHeight, getLeft, getTop, getScrollWidth,
    getScrollHeight, lastSnapCoords, CONSTRAINT, START, END, CENTER, NONE,
    exC5B, docElD, zeroPad, mkCand, List.getD, List.get?, Int.toNat, List.length]

lemma exC5B_eval_zero :
    resolveCall docElD ⟨0⟩ exC5B ⟨1, 1⟩ = some (⟨0, 300⟩, ⟨1⟩) := by
  norm_num [resolveCall, getNextElementSnapPoint, scanLoop, candidateSnapCoords,
    adjustForPadding, stayInBounds, toPx, roundByDirection, getXSnapLength,
    getYSnapLength, getWidth, getHeight, getLeft, getTop, getScrollWidth,
    getScrollHeight, lastSnapCoords, CONSTRAINT, START, END, CENTER, NONE,
    exC5B, docElD, zeroPad, mkCand, List.getD, List.get?, Int.toNat, List.length]

/-- C5 counterexample: the claim demands that resolving container
`exC5A` leave the scan index used for the distinct container `exC5B`
unchanged; but the scan state is one shared module variable, and the
call for `exC5A` moves it from 0 to 1. -/
theorem c5_counterexample :
    resolveCall docElD ⟨0⟩ exC5A ⟨1, 1⟩ = some (⟨0, 300⟩, ⟨1⟩) ∧
    exC5A ≠ exC5B ∧
    (⟨1⟩ : ModuleState) ≠ (⟨0⟩ : ModuleState) := by
  refine ⟨exC5A_eval, ?_, ?_⟩
  · intro h
    exact absurd (congrArg (fun c => c.scrollHeight) h) (by norm_num [exC5A, exC5B])
  · intro h
    exact absurd (congrArg ModuleState.currentIteration h) (by norm_num)

/-- C5 amended: the resolver mutates the single module-global scan
index shared by every container — the index returned by a call for one
container is the index any other container's next resolution starts
from, and this changes that resolution's outcome: after `exC5A` moves
the shared index from 0 to 1, `exC5B`'s next resolution yields
(600, index 2) instead of the (300, index 1) it would produce from its
own prior index 0. -/
theorem c5_theorem :
    resolveCall docElD ⟨0⟩ exC5A ⟨1, 1⟩ = some (⟨0, 300⟩, ⟨1⟩) ∧
    resolveCall docElD ⟨1⟩ exC5B ⟨1, 1⟩ = some (⟨0, 600⟩, ⟨2⟩) ∧
    resolveCall docElD ⟨0⟩ exC5B ⟨1, 1⟩ = some (⟨0, 300⟩, ⟨1⟩) ∧
    some ((⟨0, 600⟩ : Coords), (⟨2⟩ : ModuleState)) ≠
      some ((⟨0, 300⟩ : Coords), (⟨1⟩ : ModuleState)) := by
  refine ⟨exC5A_eval, exC5B_eval_one, exC5B_eval_zero, ?_⟩
  simp only [ne_eq, Option.some.injEq, Prod.mk.injEq, Coords.mk.injEq, not_and]
  intro h
  exact absurd h.2 (by norm_num)

/-- C6: on a settle with net movement for a container whose candidate
list is empty, the code skips the resolver but still passes the
undefined snap point to `smoothScroll`, whose read of `end.y` throws a
TypeError — the system does not degrade to inaction as the claim (and
the guard before the resolver call) intends. -/
theorem c6_theorem :
    handlerDelayed docElD ⟨0, 0⟩ exC6 0 = .error .typeError := by
  norm_num [handlerDelayed, smoothScroll, exC6, Except.map]

/-- C10: `parseLengthPercentage` is not a pure function of its string:
the module-level regex carries the `g` flag, so a successful first call
on "10px" leaves `lastIndex = 4`, and an immediately repeated call on
the same token finds no match from there and falls back to
`{value 0, unit px}`. -/
theorem c10_theorem :
    parseLengthPercentage 0 "10px" = (⟨10, "px"⟩, 4) ∧
    parseLengthPercentage 4 "10px" = (⟨0, "px"⟩, 0) ∧
    (⟨10, "px"⟩ : LengthPercentage) ≠ (⟨0, "px"⟩ : LengthPercentage) := by
  refine ⟨?_, ?_, ?_⟩
  · decide
  · decide
  · intro h
    exact absurd (congrArg LengthPercentage.value h) (by norm_num)

lemma stayInBounds_bounds (mx d : ℚ) (h : 0 ≤ mx) :
    0 ≤ stayInBounds 0 mx d ∧ stayInBounds 0 mx d ≤ mx := by
  unfold stayInBounds
  exact ⟨le_max_right _ _, max_le (min_le_right _ _) h⟩

/-- C2: whatever the container, candidate list, direction and persisted
index, every coordinate of a snap point the resolver returns lies in
[0, scrollable extent] of its axis — all return paths clamp through
`stayInBounds`. -/
theorem c2_theorem (docEl : Elem) (scrollObj obj : SnapContainer) (direction : Dir)
    (currentIteration : Int) (pt : Coords) (i' : Int)
    (hW : 0 ≤ getScrollWidth scrollObj.toScrollObj)
    (hH : 0 ≤ getScrollHeight scrollObj.toScrollObj)
    (hres : getNextElementSnapPoint docEl scrollObj obj direction currentIteration =
      some (pt, i')) :
    0 ≤ pt.y ∧ pt.y ≤ getScrollHeight scrollObj.toScrollObj ∧
    0 ≤ pt.x ∧ pt.x ≤ getScrollWidth scrollObj.toScrollObj := by
  simp only [getNextElementSnapPoint] at hres
  repeat' split at hres
  all_goals try exact Option.noConfusion hres
  all_goals
    simp only [Option.some.injEq, Prod.mk.injEq] at hres
    obtain ⟨h1, -⟩ := hres
    subst h1
    exact ⟨(stayInBounds_bounds _ _ hH).1, (stayInBounds_bounds _ _ hH).2,
      (stayInBounds_bounds _ _ hW).1, (stayInBounds_bounds _ _ hW).2⟩

lemma exC2_eval :
    getNextElementSnapPoint docElD exC2 exC2 ⟨1, 1⟩ 0 = some (⟨0, 300⟩, 1) := by
  norm_num [getNextElementSnapPoint, scanLoop, candidateSnapCoords, adjustForPadding,
    stayInBounds, toPx, roundByDirection, getXSnapLength, getYSnapLength, getWidth,
    getHeight, getLeft, getTop, getScrollWidth, getScrollHeight, lastSnapCoords,
    CONSTRAINT, START, END, CENTER, NONE, exC2, docElD, zeroPad, mkCand,
    List.getD, List.get?, Int.toNat, List.length]

/-- C2 witness: the clamping bounds at a concrete resolved snap point. -/
theorem c2_witness :
    0 ≤ (⟨0, 300⟩ : Coords).y ∧
    (⟨0, 300⟩ : Coords).y ≤ getScrollHeight exC2.toScrollObj ∧
    0 ≤ (⟨0, 300⟩ : Coords).x ∧
    (⟨0, 300⟩ : Coords).x ≤ getScrollWidth exC2.toScrollObj :=
  c2_theorem docElD exC2 exC2 ⟨1, 1⟩ 0 ⟨0, 300⟩ 1
    (by norm_num [getScrollWidth, exC2]) (by norm_num [getScrollHeight, exC2]) exC2_eval

/-- C7: for numeric start and end offsets the computed duration is the
clamp of a finite number into [SCROLL_TIME / 1.5, SCROLL_TIME], hence
lies in that interval; and whenever the raw computation is NaN the
returned duration is 0. -/
theorem c7_theorem (clientHeight innerHeight : ℚ) (s e : JSNum) :
    (∀ qs qe : ℚ, s = .num qs → e = .num qe →
       ∃ q : ℚ, getDuration clientHeight innerHeight s e = .num q ∧
         SCROLL_TIME / 1.5 ≤ q ∧ q ≤ SCROLL_TIME) ∧
    (rawDuration clientHeight innerHeight s e = .nan →
       getDuration clientHeight innerHeight s e = .num 0) := by
  constructor
  · rintro qs qe rfl rfl
    have hraw : rawDuration clientHeight innerHeight (.num qs) (.num qe) =
        .num (100 / SCROLL_TIME *
          (100 / max clientHeight (if innerHeight = 0 then 1 else innerHeight) * |qs - qe|)) := by
      simp [rawDuration, jsSub, jsAbs, jsMulQ]
    refine ⟨max (SCROLL_TIME / 1.5)
      (min (100 / SCROLL_TIME *
        (100 / max clientHeight (if innerHeight = 0 then 1 else innerHeight) * |qs - qe|))
        SCROLL_TIME), ?_, le_max_left _ _, ?_⟩
    · rw [getDuration, hraw, if_neg (by simp)]
      simp [jsMin, jsMax]
    · exact max_le (by norm_num [SCROLL_TIME]) (min_le_right _ _)
  · intro h
    rw [getDuration, if_pos h]

/-- C7 witness: the duration bounds at concrete numeric offsets, and
the zero fallback at a NaN input. -/
theorem c7_witness :
    (∃ q : ℚ, getDuration 600 800 (.num 0) (.num 100) = .num q ∧
       SCROLL_TIME / 1.5 ≤ q ∧ q ≤ SCROLL_TIME) ∧
    getDuration 600 800 .nan (.num 0) = .num 0 :=
  ⟨(c7_theorem 600 800 (.num 0) (.num 100)).1 0 100 rfl rfl,
   (c7_theorem 600 800 .nan (.num 0)).2 (by simp [rawDuration, jsSub, jsAbs, jsMulQ])⟩

/-- C8 counterexample: with duration 0 and elapsed 0 (so elapsed is at
least the duration), the animator sample is NaN, not the end point 100
and not the start point 0: the `elapsed/duration` ratio is 0 / 0. -/
theorem c8_counterexample :
    (0 : ℚ) ≥ (0 : ℚ) ∧
    position 0 100 0 0 = JSNum.nan ∧
    JSNum.nan ≠ JSNum.num 100 ∧
    JSNum.nan ≠ JSNum.num 0 := by
  refine ⟨le_refl 0, ?_, by simp, by simp⟩
  simp [position, jsDiv, easeInCubic, jsMulQ, jsAddQ]

/-- C8 amended: the sample is exactly the end point whenever elapsed
strictly exceeds the duration, and for strictly positive durations it
is exactly the end point at elapsed = duration and exactly the start
point at elapsed = 0; at duration = 0 with elapsed = 0 the sample is
NaN instead. -/
theorem c8_theorem (start end' elapsed duration : ℚ) :
    (elapsed > duration → position start end' elapsed duration = .num end') ∧
    (0 < duration → position start end' duration duration = .num end') ∧
    (0 < duration → position start end' 0 duration = .num start) := by
  refine ⟨?_, ?_, ?_⟩
  · intro h
    rw [position, if_pos h]
  · intro h
    rw [position, if_neg (lt_irrefl duration)]
    rw [jsDiv, if_neg (ne_of_gt h)]
    have hd : duration / duration = 1 := div_self (ne_of_gt h)
    rw [hd]
    simp only [easeInCubic, mul_one, jsMulQ, jsAddQ]
    have : start + (end' - start) = end' := by ring
    rw [this]
  · intro h
    have hne : ¬((0 : ℚ) > duration) := not_lt.mpr (le_of_lt h)
    rw [position, if_neg hne]
    rw [jsDiv, if_neg (ne_of_gt h)]
    have hd : (0 : ℚ) / duration = 0 := zero_div duration
    rw [hd]
    simp only [easeInCubic, mul_zero, zero_mul, jsMulQ, jsAddQ]
    have : start + 0 = start := by ring
    rw [this]

/-- C8 witness: the amended sampling identities at concrete values. -/
theorem c8_witness :
    position 0 100 5 3 = .num 100 ∧
    position 0 100 3 3 = .num 100 ∧
    position 0 100 0 3 = .num 0 :=
  ⟨(c8_theorem 0 100 5 3).1 (by norm_num),
   (c8_theorem 0 100 3 3).2.1 (by norm_num),
   (c8_theorem 0 100 0 3).2.2 (by norm_num)⟩

lemma setOffsets_snapElements (c : SnapContainer) (off : Coords) :
    (setOffsets c off).snapElements = c.snapElements := rfl

lemma scanLoop_accepted_bounds (scrollObj obj : SnapContainer) (direction : Dir)
    (xT yT : ℚ) :
    ∀ (fuel : Nat) (i : Int) (sc : Coords) (j : Int) (co : Coords),
      scanLoop scrollObj obj direction xT yT 1 fuel i sc = .accepted j co →
      i ≤ j ∧ j < (obj.snapElements.length : Int) := by
  intro fuel
  induction fuel with
  | zero =>
    intro i sc j co h
    rw [scanLoop] at h
    exact ScanResult.noConfusion h
  | succ n ih =>
    intro i sc j co h
    simp only [scanLoop] at h
    split at h
    case isTrue hrange =>
      repeat' split at h
      all_goals try exact ScanResult.noConfusion h
      all_goals try (injection h with h1 h2; subst h1; exact ⟨le_refl _, hrange.1⟩)
      all_goals (have hb := ih _ _ _ _ h; omega)
    case isFalse => exact ScanResult.noConfusion h

lemma resolver_next_bounds (docEl : Elem) (scrollObj obj : SnapContainer)
    (cur : Int) (pt : Coords) (i' : Int)
    (h0 : 0 ≤ cur) (hl : cur < (obj.snapElements.length : Int))
    (hres : getNextElementSnapPoint docEl scrollObj obj ⟨1, 1⟩ cur = some (pt, i')) :
    cur ≤ i' ∧ 0 ≤ i' ∧ i' < (obj.snapElements.length : Int) := by
  simp only [getNextElementSnapPoint, min_self] at hres
  split at hres
  · split at hres
    · exact Option.noConfusion hres
    · simp only [Option.some.injEq, Prod.mk.injEq] at hres
      obtain ⟨-, h2⟩ := hres
      rename_i hlen
      omega
  · split at hres
    case isTrue hr =>
      split at hres
      case h_1 j co heq =>
        have hb := scanLoop_accepted_bounds scrollObj obj ⟨1, 1⟩ _ _ _ _ _ _ _ heq
        simp only [Option.some.injEq, Prod.mk.injEq] at hres
        obtain ⟨-, h2⟩ := hres
        omega
      case h_2 j co heq =>
        split at hres
        case isTrue hc =>
          simp only [Option.some.injEq, Prod.mk.injEq] at hres
          obtain ⟨-, h2⟩ := hres
          omega
        case isFalse =>
          split at hres
          case isTrue hc =>
            exact absurd hc.1 (by decide)
          case isFalse =>
            simp only [Option.some.injEq, Prod.mk.injEq] at hres
            obtain ⟨-, h2⟩ := hres
            omega
      case h_3 => exact Option.noConfusion hres
    case isFalse => exact Option.noConfusion hres

lemma resolveIndexStep_bounds (docEl : Elem) (c : SnapContainer) (cur : Int) (off : Coords)
    (h0 : 0 ≤ cur) (hl : cur < (c.snapElements.length : Int)) :
    cur ≤ resolveIndexStep docEl c cur off ∧ 0 ≤ resolveIndexStep docEl c cur off ∧
      resolveIndexStep docEl c cur off < (c.snapElements.length : Int) := by
  unfold resolveIndexStep
  rcases hres : getNextElementSnapPoint docEl (setOffsets c off) (setOffsets c off) ⟨1, 1⟩ cur
    with - | ⟨pt, i'⟩
  · simp only [hres]
    exact ⟨le_refl cur, h0, hl⟩
  · simp only [hres]
    have hb := resolver_next_bounds docEl (setOffsets c off) (setOffsets c off) cur pt i' h0
      (by rwa [setOffsets_snapElements]) hres
    rwa [setOffsets_snapElements] at hb

lemma scanl_head_eq (f : Int → Coords → Int) (b : Int) (l : List Coords) :
    (List.scanl f b l).head? = some b := by
  cases l <;> simp [List.scanl]

lemma indexChain (docEl : Elem) (c : SnapContainer) :
    ∀ (offs : List Coords) (i0 : Int), 0 ≤ i0 → i0 < (c.snapElements.length : Int) →
      List.Chain' (fun a b => a ≤ b) (List.scanl (resolveIndexStep docEl c) i0 offs) := by
  intro offs
  induction offs with
  | nil =>
    intro i0 _ _
    simp [List.scanl]
  | cons o os ih =>
    intro i0 h0 hl
    rw [List.scanl_cons, List.singleton_append]
    have hstep := resolveIndexStep_bounds docEl c i0 o h0 hl
    refine List.chain'_cons'.mpr ⟨?_, ih _ hstep.2.1 hstep.2.2⟩
    intro y hy
    simp only [scanl_head_eq, Option.mem_def, Option.some.injEq] at hy
    subst hy
    exact hstep.1

/-- C9: over any sequence of forward settles (direction (1, 1), the
direction a pure downward scroll produces, the zero x delta defaulting
to +1) on one container, the indices produced by successive resolver
calls form a non-decreasing sequence: every step moves the persisted
index forward or keeps it. -/
theorem c9_theorem (docEl : Elem) (c : SnapContainer) (i0 : Int) (offs : List Coords)
    (h0 : 0 ≤ i0) (hl : i0 < (c.snapElements.length : Int)) :
    List.Chain' (fun a b => a ≤ b) (List.scanl (resolveIndexStep docEl c) i0 offs) :=
  indexChain docEl c offs i0 h0 hl

/-- C9 witness: the non-decreasing index chain for a concrete container
and a concrete sequence of three forward settles. -/
theorem c9_witness :
    List.Chain' (fun a b => a ≤ b)
      (List.scanl (resolveIndexStep docElD exC9) 0 [⟨0, 250⟩, ⟨0, 400⟩, ⟨0, 100⟩]) :=
  c9_theorem docElD exC9 0 [⟨0, 250⟩, ⟨0, 400⟩, ⟨0, 100⟩] (by norm_num)
    (by norm_num [exC9])

end ScrollSnap
